import Mathlib

/-!
Verification of the HarmonicDrive near-field-scanner operator console
(`src/main.py`) against its natural-language specification.

The development shallowly embeds the coordination core of `main.py`:
the UI handle set and command guarding (`greyable_buttons`, `safe_move`),
the state monitor (`_scanner_has_alarm`, `_is_home_successful`,
`_get_raw_state_string`, `update_scanner_position`, `home_and_update`),
the log tail (`tail_scanner_log`) and the measurement-file pollers
(`load_measurement_data`, `update_plot`, `watch_file`).

External driver calls (`scanner.get_state()`, `scanner.get_position()`)
are blocking calls that may raise or return `None`; they are embedded as
values of type `Except Unit (Option _)` passed to each function that
performs such a call, one value per call site.  Raw machine states are
embedded as the state's name string; positions as rational triples.
-/

namespace HarmonicDrive

/-! ### Buttons and commands (UI construction, `src/main.py` 257-429) -/

/-- The three jog axes of `add_jog_row` calls: PHI, R, Z (`main.py` 342-367). -/
inductive Axis
  | phi
  | r
  | z
deriving DecidableEq

/-- Which side of a jog row a button sits on: left (CW / IN / DOWN) or
right (CCW / OUT / UP). -/
inductive Side
  | left
  | right
deriving DecidableEq

/-- UI handles of `main.py`.  `jog a s i` is the `i`-th button of side `s` of
the jog row for axis `a` (magnitudes 120/60/10/1 on the left, 1/10/60/120 on
the right); the remaining constructors are the named buttons of the layout. -/
inductive ButtonId
  | jog (a : Axis) (s : Side) (i : Fin 4)
  | stopJog (a : Axis)
  | homeBtn
  | clearAlarmBtn
  | softResetBtn
  | rehomeBtn
  | setHeightOffsetBtn
  | zeroNfsBtn
  | startMeasurementsBtn
  | takeSingleMeasurementBtn
  | startNfsBtn
  | stopNfsBtn
deriving DecidableEq

/-- The eight jog buttons appended to `greyable_buttons` by one `add_jog_row`
call (`main.py` 271-301): the four left-side buttons in loop order, then the
four right-side buttons in loop order. -/
def jog_row_buttons (a : Axis) : List ButtonId :=
  ((List.finRange 4).map fun i => ButtonId.jog a Side.left i) ++
    ((List.finRange 4).map fun i => ButtonId.jog a Side.right i)

/-- The `greyable_buttons` list as built by the UI construction code:
the three jog rows (PHI at 342, R at 351, Z at 360), then the
`Zero NFS` button (411), then `Start measurements` (423) and
`Take single measurement` (424).  The HOME, Clear Alarm, Soft Reset,
REHOME, Set height offset, Start NFS and Stop NFS buttons are never
appended to this list. -/
def greyable_buttons : List ButtonId :=
  jog_row_buttons Axis.phi ++ jog_row_buttons Axis.r ++ jog_row_buttons Axis.z ++
    [ButtonId.zeroNfsBtn, ButtonId.startMeasurementsBtn, ButtonId.takeSingleMeasurementBtn]

/-- The operator-issued device-affecting commands named by the spec:
jog moves, HOME, Clear Alarm, Soft Reset, REHOME, Zero NFS and the two
measurement commands. -/
inductive Command
  | jogMove (a : Axis) (s : Side) (i : Fin 4)
  | homeCmd
  | clearAlarmCmd
  | softResetCmd
  | rehomeCmd
  | zeroNfsCmd
  | startMeasurementsCmd
  | takeSingleMeasurementCmd
deriving DecidableEq

/-- The UI handle whose click triggers each command. -/
def trigger_handle : Command → ButtonId
  | Command.jogMove a s i => ButtonId.jog a s i
  | Command.homeCmd => ButtonId.homeBtn
  | Command.clearAlarmCmd => ButtonId.clearAlarmBtn
  | Command.softResetCmd => ButtonId.softResetBtn
  | Command.rehomeCmd => ButtonId.rehomeBtn
  | Command.zeroNfsCmd => ButtonId.zeroNfsBtn
  | Command.startMeasurementsCmd => ButtonId.startMeasurementsBtn
  | Command.takeSingleMeasurementCmd => ButtonId.takeSingleMeasurementBtn

/-- The set of handles each command's handler disables while it is in flight,
read off the handler wired to each button:
jog buttons call `safe_move(f, v)` (288, 299), HOME runs
`home_and_update` which awaits `safe_move(scanner.home)` (373), and REHOME
calls `safe_move(rehome)` (397) — `safe_move` disables `greyable_buttons`
(163-164); the two measurement commands (`async_task` 135-147,
`async_single_measurement_task` 149-159) also disable `greyable_buttons`
themselves.  Clear Alarm (387) and Soft Reset (392) run
`run.io_bound(...)` directly and Zero NFS runs
`zero_nfs_then_apply_height_offset` (171-174); none of those three
disables any handle. -/
def disabled_while_running : Command → List ButtonId
  | Command.jogMove _ _ _ => greyable_buttons
  | Command.homeCmd => greyable_buttons
  | Command.clearAlarmCmd => []
  | Command.softResetCmd => []
  | Command.rehomeCmd => greyable_buttons
  | Command.zeroNfsCmd => []
  | Command.startMeasurementsCmd => greyable_buttons
  | Command.takeSingleMeasurementCmd => greyable_buttons

/-! ### The command guard `safe_move` (`src/main.py` 161-169) -/

/-- `for button in greyable_buttons: button.disable()` applied to an
enabled/disabled assignment of the handles (disabling is idempotent, so the
sequential loop equals this pointwise update). -/
def disable_all (bs : List ButtonId) (s : ButtonId → Bool) : ButtonId → Bool :=
  fun b => if b ∈ bs then false else s b

/-- `for button in greyable_buttons: button.enable()` applied to an
enabled/disabled assignment of the handles. -/
def enable_all (bs : List ButtonId) (s : ButtonId → Bool) : ButtonId → Bool :=
  fun b => if b ∈ bs then true else s b

/-- `safe_move(func, *args)`: disables every handle in `greyable_buttons`,
awaits `run.io_bound(func, *args)` (embedded as its outcome
`op : Except E A`) and re-enables every handle in a `finally` block, so the
re-enable runs on the exception path as well and the outcome — normal result
or exception — is returned/re-raised unchanged.  Returns (outcome, final
handle state). -/
def safe_move {E A : Type} (op : Except E A) (s : ButtonId → Bool) :
    Except E A × (ButtonId → Bool) :=
  (op, enable_all greyable_buttons (disable_all greyable_buttons s))

/-- The successive handle states a `safe_move` call produces: the state
after the disable loop (held while the operation runs) and the state after
the `finally` re-enable loop. -/
def safe_move_states {E A : Type} (_op : Except E A) (s : ButtonId → Bool) :
    List (ButtonId → Bool) :=
  [disable_all greyable_buttons s,
    enable_all greyable_buttons (disable_all greyable_buttons s)]

/-! ### State monitor (`src/main.py` 306-334, 369-375, 480-523) -/

/-- A position snapshot as reported by `scanner.get_position()`:
radial `r` (mm), vertical `z` (mm), angular `t` (deg).  The driver's float
values are embedded as rationals. -/
structure Position where
  r : ℚ
  z : ℚ
  t : ℚ
deriving DecidableEq

/-- What the position label shows after a tick: the formatted position
(`f'Position: {pos}'`), the no-position sentinel
(`'Position: (no position available)'`), or the startup placeholder
(`'Position: —'`). -/
inductive PositionLabel
  | shows (p : Position)
  | noPositionAvailable
  | dash
deriving DecidableEq

/-- What the state label shows after a tick: the raw state string
(`f'State: {raw_state}'`), the unavailable sentinel
(`'State: (unavailable)'`), or the startup placeholder (`'State: —'`). -/
inductive StateLabel
  | shows (raw : String)
  | unavailable
  | dash
deriving DecidableEq

/-- The monitor-owned UI state touched by `update_scanner_position` and
`home_and_update`: the two labels, the ALARM badge (visibility and the
`alarm_blink` CSS class), the `home_state['ok']` flag and the HOME button
color. -/
structure Monitor where
  positionLabel : PositionLabel
  stateLabel : StateLabel
  alarmVisible : Bool
  alarmBlink : Bool
  homeOk : Bool
  homeColor : String
deriving DecidableEq

/-- The monitor state at startup (`main.py` 369, 379-383, 436-440):
badge hidden and not blinking, placeholder labels, `home_state['ok'] = False`,
HOME button orange. -/
def initial_monitor : Monitor :=
  { positionLabel := PositionLabel.dash
    stateLabel := StateLabel.dash
    alarmVisible := false
    alarmBlink := false
    homeOk := false
    homeColor := "orange" }

/-- Python's `str.upper()` on a state-name string: uppercases each
character. -/
def str_upper (s : String) : String :=
  String.mk (s.data.map Char.toUpper)

/-- `_scanner_has_alarm()` (`main.py` 306-315): calls `scanner.get_state()`
(embedded as its outcome `st`); returns `False` when the call raises or
returns `None`, else compares the state's name, uppercased, with
`'ALARM'`. -/
def scanner_has_alarm (st : Except Unit (Option String)) : Bool :=
  match st with
  | Except.error _ => false
  | Except.ok none => false
  | Except.ok (some name) => str_upper name == "ALARM"

/-- `_get_raw_state_string()` (`main.py` 480-486): calls
`scanner.get_state()` (embedded as its outcome `st`); returns `None` when
the call raises or returns `None`, else the state's string. -/
def get_raw_state_string (st : Except Unit (Option String)) : Option String :=
  match st with
  | Except.error _ => none
  | Except.ok none => none
  | Except.ok (some s) => some s

/-- `_is_home_successful(tol_mm, tol_deg)` (`main.py` 317-327): `False` when
`_scanner_has_alarm()` (state call outcome `stAlarm`); else calls
`scanner.get_position()` (outcome `posRes`): `False` when it raises or
returns `None`, else `|r| ≤ tol_mm ∧ |z| ≤ tol_mm ∧ |t| ≤ tol_deg`.
The call site uses the default tolerances `0.5` / `0.5`. -/
def is_home_successful (stAlarm : Except Unit (Option String))
    (posRes : Except Unit (Option Position)) (tol_mm tol_deg : ℚ) : Bool :=
  if scanner_has_alarm stAlarm then false
  else
    match posRes with
    | Except.error _ => false
    | Except.ok none => false
    | Except.ok (some p) =>
        decide (|p.r| ≤ tol_mm) && decide (|p.z| ≤ tol_mm) && decide (|p.t| ≤ tol_deg)

/-- One tick of `update_scanner_position()` (`main.py` 488-523).
`posRes` is the outcome of the `scanner.get_position()` call at 489 — made
outside any `try`, so a raise propagates out of the tick (hence the
`Except` result).  `stRaw` and `stAlarm` are the outcomes of the two
separate `scanner.get_state()` calls made by `_get_raw_state_string()`
(500) and `_scanner_has_alarm()` (507).  A completing tick updates both
labels, then either activates the alarm indicator and clears
`home_state['ok']` (alarm branch, 507-513) or deactivates the indicator and
keeps the flag (514-521). -/
def update_scanner_position (posRes : Except Unit (Option Position))
    (stRaw stAlarm : Except Unit (Option String)) (m : Monitor) :
    Except Unit Monitor :=
  match posRes with
  | Except.error e => Except.error e
  | Except.ok pos =>
    let m1 :=
      match pos with
      | some p => { m with positionLabel := PositionLabel.shows p }
      | none => { m with positionLabel := PositionLabel.noPositionAvailable }
    let m2 :=
      match get_raw_state_string stRaw with
      | some s => { m1 with stateLabel := StateLabel.shows s }
      | none => { m1 with stateLabel := StateLabel.unavailable }
    if scanner_has_alarm stAlarm then
      Except.ok { m2 with alarmVisible := true, alarmBlink := true,
                          homeOk := false, homeColor := "orange" }
    else
      Except.ok { m2 with alarmVisible := false, alarmBlink := false,
                          homeColor := if m2.homeOk then "green" else "orange" }

/-- `home_and_update()` (`main.py` 371-375), after `safe_move(scanner.home)`
has completed: sets `home_state['ok']` to the result of
`_is_home_successful()` (state call outcome `stAlarm`, position call outcome
`posRes`, default tolerances 0.5/0.5) and colors the HOME button
accordingly. -/
def home_and_update (stAlarm : Except Unit (Option String))
    (posRes : Except Unit (Option Position)) (m : Monitor) : Monitor :=
  let ok := is_home_successful stAlarm posRes (1 / 2) (1 / 2)
  { m with homeOk := ok, homeColor := if ok then "green" else "orange" }

/-! ### Log tail (`src/main.py` 452-478)

The log file's content is embedded as a character list (the log is
newline-delimited UTF-8 text; one character per byte at the granularity the
claims need), `stat().st_size` as its length and the stored byte offset
`_log_tail_state['pos']` as a natural number. -/

/-- `str.splitlines()` on newline-delimited content: splits at each `'\n'`,
dropping a final empty fragment after a trailing newline (so
`"a\nb\n"` gives `["a", "b"]` and `""` gives `[]`), as Python does. -/
def splitlines : List Char → List (List Char)
  | [] => []
  | c :: cs =>
    if c = '\n' then [] :: splitlines cs
    else
      match splitlines cs with
      | [] => [[c]]
      | l :: ls => (c :: l) :: ls

/-- One call of `tail_scanner_log()` (`main.py` 455-474), on a file embedded
as `none` (missing) or `some content`, with stored offset `pos`.  Missing
file: no output, offset kept.  Otherwise: if the size shrank below the
offset, reset the offset to 0 (rotation/truncation); seek to the offset,
read the remaining chunk, store `f.tell()` (= offset + chunk length); an
empty chunk yields no output, else the chunk's `splitlines()` are pushed in
order.  Returns (new offset, pushed lines). -/
def tail_scanner_log (file : Option (List Char)) (pos : ℕ) :
    ℕ × List (List Char) :=
  match file with
  | none => (pos, [])
  | some content =>
    let size := content.length
    let pos0 := if size < pos then 0 else pos
    let chunk := content.drop pos0
    let newPos := pos0 + chunk.length
    if chunk.isEmpty then (newPos, [])
    else (newPos, splitlines chunk)

/-! ### Measurement-file pollers (`src/main.py` 176-254, 525-526)

A parsed measurement file is embedded as its data rows `(r, theta, z)`
after the skipped header row, as rationals (the file's decimal literals);
`none` is a missing file.  Angles produced by the projection live in `ℝ`
since the projection applies `arctan`. -/

/-- `numpy.arctan2 y x`: the angle of the point `(x, y)`, in radians. -/
noncomputable def arctan2 (y x : ℝ) : ℝ :=
  if 0 < x then Real.arctan (y / x)
  else if x < 0 ∧ 0 ≤ y then Real.arctan (y / x) + Real.pi
  else if x < 0 ∧ y < 0 then Real.arctan (y / x) - Real.pi
  else if x = 0 ∧ 0 < y then Real.pi / 2
  else if x = 0 ∧ y < 0 then -(Real.pi / 2)
  else 0

/-- `numpy.degrees`: radians to degrees. -/
noncomputable def degrees (x : ℝ) : ℝ :=
  x * (180 / Real.pi)

/-- `load_measurement_data()` (`main.py` 176-201): `(None, None)` when the
file is missing (179-180) or `np.loadtxt` yields no data rows
(`data.size == 0`, 184-185, the `rows = []` branch).  For exactly one data
row, `np.loadtxt` (default `ndmin=0`) squeezes the result to a 1-D array of
shape `(3,)`, so the column indexing `data[:, 0]` at 187 raises
`IndexError`; the bare `except Exception` at 199 catches it and returns
`(None, None)` (the `rows.length = 1` branch).  Only with two or more data
rows does the indexing succeed, producing per row `(r, theta, z)` the
projected pair (azimuth `theta`, elevation `degrees(arctan2(z, r))`);
the azimuth/elevation arrays are embedded as the list of pairs. -/
noncomputable def load_measurement_data (file : Option (List (ℚ × ℚ × ℚ))) :
    Option (List (ℚ × ℝ)) :=
  match file with
  | none => none
  | some rows =>
    if rows = [] then none
    else if rows.length = 1 then none
    else some (rows.map fun row => (row.2.1, degrees (arctan2 (row.2.2 : ℝ) (row.1 : ℝ))))

/-- Observable actions of one `update_plot()` call. -/
inductive PlotAction
  | readFile
  | clearFigure
  | renderScatter
  | renderPlaceholder
  | pushUpdate
deriving DecidableEq

/-- `update_plot()` (`main.py` 204-236): unconditionally calls
`load_measurement_data()` (a fresh read and full re-parse of the file),
clears the figure, draws either the scatter of the loaded dataset or the
no-data placeholder, and pushes the new render with `plot.update()`. -/
noncomputable def update_plot (file : Option (List (ℚ × ℚ × ℚ))) : List PlotAction :=
  PlotAction.readFile :: PlotAction.clearFigure ::
    ((match load_measurement_data file with
      | some _ => [PlotAction.renderScatter]
      | none => [PlotAction.renderPlaceholder]) ++ [PlotAction.pushUpdate])

/-- One iteration of the `watch_file()` loop body (`main.py` 239-254):
`mtime` is the file's current modification time (`none` when
`file_path.exists()` is false), `last` the stored `last_mtime`.  Only when
the file exists and its mtime differs is `last_mtime` updated and
`update_plot()` run.  Returns (new `last_mtime`, actions performed).
This function is defined in `main.py` but never scheduled. -/
noncomputable def watch_file_tick (mtime : Option ℚ) (last : ℚ)
    (file : Option (List (ℚ × ℚ × ℚ))) : ℚ × List PlotAction :=
  match mtime with
  | none => (last, [])
  | some current => if current ≠ last then (current, update_plot file) else (last, [])

/-- One tick of the measurement poll the program actually registers,
`ui.timer(1.0, update_plot)` (`main.py` 526): it invokes `update_plot()`
directly every tick; the file's current and previously seen modification
times are not consulted (the mtime-checking `watch_file()` is never
scheduled). -/
noncomputable def measurement_timer_tick (_lastMtime _currentMtime : ℚ)
    (file : Option (List (ℚ × ℚ × ℚ))) : List PlotAction :=
  update_plot file

/-- The name string of the device's ALARM state. -/
def alarm_state_name : String :=
  "ALARM"

/-- A monitor state whose homed flag was earned on an earlier tick. -/
def monitor_homed : Monitor :=
  { initial_monitor with homeOk := true }

/-- The monitor state `monitor_homed` reaches after one completing tick with
no position, no state and no alarm observed. -/
def monitor_homed_after_quiet_tick : Monitor :=
  { initial_monitor with
      positionLabel := PositionLabel.noPositionAvailable
      stateLabel := StateLabel.unavailable
      homeOk := true
      homeColor := "green" }

/-! ## Claims -/

/-- C1, counterexample: the claim "while any guarded command is in flight,
the disabled handle set includes the handles of every other
device-affecting command" is false at a concrete input: HOME's guarded
command disables exactly `greyable_buttons`, which does not contain the
Clear Alarm button's handle, so Clear Alarm can be started while HOME is in
flight. -/
theorem C1_counterexample :
    Command.homeCmd ≠ Command.clearAlarmCmd ∧
      trigger_handle Command.clearAlarmCmd ∉ disabled_while_running Command.homeCmd := by
  decide

/-- C1, amended: the guarded commands (jog moves, HOME, REHOME, the two
measurement commands) each disable exactly the `greyable_buttons` set while
in flight, and that set contains every jog handle, the Zero NFS handle and
both measurement handles — but not the HOME, Clear Alarm, Soft Reset or
REHOME handles; moreover the Clear Alarm, Soft Reset and Zero NFS commands
disable no handles at all, so mutual exclusion is not enforced between a
guarded command and those commands. -/
theorem C1_lock_set_characterization (a : Axis) (s : Side) (i : Fin 4) :
    disabled_while_running (Command.jogMove a s i) = greyable_buttons ∧
    disabled_while_running Command.homeCmd = greyable_buttons ∧
    disabled_while_running Command.rehomeCmd = greyable_buttons ∧
    disabled_while_running Command.startMeasurementsCmd = greyable_buttons ∧
    disabled_while_running Command.takeSingleMeasurementCmd = greyable_buttons ∧
    disabled_while_running Command.clearAlarmCmd = [] ∧
    disabled_while_running Command.softResetCmd = [] ∧
    disabled_while_running Command.zeroNfsCmd = [] ∧
    ButtonId.jog a s i ∈ greyable_buttons ∧
    ButtonId.zeroNfsBtn ∈ greyable_buttons ∧
    ButtonId.startMeasurementsBtn ∈ greyable_buttons ∧
    ButtonId.takeSingleMeasurementBtn ∈ greyable_buttons ∧
    ButtonId.homeBtn ∉ greyable_buttons ∧
    ButtonId.clearAlarmBtn ∉ greyable_buttons ∧
    ButtonId.softResetBtn ∉ greyable_buttons ∧
    ButtonId.rehomeBtn ∉ greyable_buttons := by
  refine ⟨rfl, rfl, rfl, rfl, rfl, rfl, rfl, rfl, ?_, by decide, by decide, by decide,
    by decide, by decide, by decide, by decide⟩
  cases a <;> cases s <;> fin_cases i <;> decide

/-- C2: for every operation outcome and every starting handle state, the
guarded call `safe_move` re-enables every handle of the greyable set on its
exit — on the normal and on the exception path alike — and returns the
operation's outcome unchanged (an exception propagates unsuppressed); the
handle's state over the guarded call is disabled strictly then enabled, so
it ends enabled after each guarded operation. -/
theorem C2_safe_move_guard {E A : Type} (op : Except E A) (s : ButtonId → Bool)
    (b : ButtonId) (hb : b ∈ greyable_buttons) :
    (safe_move op s).1 = op ∧
    (safe_move op s).2 b = true ∧
    (safe_move_states op s).map (fun st => st b) = [false, true] := by
  refine ⟨rfl, ?_, ?_⟩ <;>
    simp [safe_move, safe_move_states, enable_all, disable_all, hb]

/-- Witness for C2 at a concrete input: a failing operation, every handle
initially enabled, observed at the Zero NFS handle. -/
theorem C2_safe_move_guard_witness :
    ButtonId.zeroNfsBtn ∈ greyable_buttons ∧
    ((safe_move (Except.error () : Except Unit Unit) (fun _ => true)).1 = Except.error () ∧
     (safe_move (Except.error () : Except Unit Unit) (fun _ => true)).2 ButtonId.zeroNfsBtn = true ∧
     (safe_move_states (Except.error () : Except Unit Unit) (fun _ => true)).map
        (fun st => st ButtonId.zeroNfsBtn) = [false, true]) :=
  ⟨by decide,
    @C2_safe_move_guard Unit Unit (Except.error ()) (fun _ => true) ButtonId.zeroNfsBtn (by decide)⟩

/-- C3: home verification returns `true` iff no ALARM state was observed
(the state call returned a state whose uppercased name is `ALARM`) and the
position call returned a position with `|r| ≤ 0.5`, `|z| ≤ 0.5` and
`|t| ≤ 0.5`; it returns `false` in every other case — ALARM observed,
position missing, any axis out of tolerance. -/
theorem C3_is_home_successful_iff (st : Except Unit (Option String))
    (pos : Except Unit (Option Position)) :
    is_home_successful st pos (1 / 2) (1 / 2) = true ↔
      ((¬ ∃ s, st = Except.ok (some s) ∧ str_upper s = alarm_state_name) ∧
        ∃ p, pos = Except.ok (some p) ∧
          |p.r| ≤ 1 / 2 ∧ |p.z| ≤ 1 / 2 ∧ |p.t| ≤ 1 / 2) := by
  have halarm : scanner_has_alarm st = true ↔
      ∃ s, st = Except.ok (some s) ∧ str_upper s = alarm_state_name := by
    rcases st with e | o
    · simp [scanner_has_alarm]
    · rcases o with _ | s
      · simp [scanner_has_alarm]
      · simp [scanner_has_alarm, alarm_state_name]
  cases h : scanner_has_alarm st
  · rcases pos with e | o
    · simp [is_home_successful, h, ← halarm]
    · rcases o with _ | p
      · simp [is_home_successful, h, ← halarm]
      · simp [is_home_successful, h, ← halarm, and_assoc]
  · obtain ⟨s0, hs0, hup⟩ := halarm.mp h
    subst hs0
    simp [is_home_successful, h, hup]

/-- C4: evaluation of the code at the failing input.  When the
`scanner.get_position()` call raises (outcome `Except.error ()`), the whole
`update_scanner_position` tick raises — the call is made outside any `try`
block (`main.py` 489), so the tick does not complete, contrary to the
claim that a failing position query leaves the tick with an
"unavailable" rendering. -/
theorem C4_get_position_raise_escapes_tick :
    update_scanner_position (Except.error ()) (Except.ok none) (Except.ok none)
      initial_monitor = Except.error () :=
  rfl

/-- C5: on every tick whose position query returns (so the tick reaches the
state queries) and whose alarm-check state query observes ALARM, the tick
completes with the homed flag cleared to `false` — whatever its previous
value — and the alarm badge visible and flashing. -/
theorem C5_alarm_tick_clears_homed (pos : Option Position)
    (stRaw stAlarm : Except Unit (Option String)) (m : Monitor)
    (h : scanner_has_alarm stAlarm = true) :
    ∃ m', update_scanner_position (Except.ok pos) stRaw stAlarm m = Except.ok m' ∧
      m'.homeOk = false ∧ m'.alarmVisible = true ∧ m'.alarmBlink = true := by
  cases pos <;> cases hr : get_raw_state_string stRaw <;>
    simp [update_scanner_position, hr, h]

/-- Witness for C5 at a concrete input: state `ALARM` observed on a tick
whose previous monitor state had the homed flag `true`. -/
theorem C5_alarm_tick_clears_homed_witness :
    scanner_has_alarm (Except.ok (some alarm_state_name)) = true ∧
    (∃ m', update_scanner_position (Except.ok none) (Except.ok none)
        (Except.ok (some alarm_state_name)) monitor_homed = Except.ok m' ∧
      m'.homeOk = false ∧ m'.alarmVisible = true ∧ m'.alarmBlink = true) :=
  ⟨by decide,
    C5_alarm_tick_clears_homed none (Except.ok none) (Except.ok (some alarm_state_name))
      monitor_homed (by decide)⟩

/-- C6: (a) on every completing tick whose alarm-check does not observe
ALARM, the alarm badge is deactivated and the homed flag keeps its prior
value; (b) no completing monitor tick ever turns the homed flag from false
to true; (c) the homed flag is written `true` only by the home-verification
step of `home_and_update`, which runs after the guarded home command
completes and stores exactly the result of `_is_home_successful`. -/
theorem C6_homed_only_by_home_verification :
    (∀ (pos : Option Position) (stRaw stAlarm : Except Unit (Option String)) (m : Monitor),
        scanner_has_alarm stAlarm = false →
        ∃ m', update_scanner_position (Except.ok pos) stRaw stAlarm m = Except.ok m' ∧
          m'.homeOk = m.homeOk ∧ m'.alarmVisible = false ∧ m'.alarmBlink = false) ∧
    (∀ (posRes : Except Unit (Option Position)) (stRaw stAlarm : Except Unit (Option String))
        (m m' : Monitor),
        update_scanner_position posRes stRaw stAlarm m = Except.ok m' →
        m'.homeOk = true → m.homeOk = true) ∧
    (∀ (stAlarm : Except Unit (Option String)) (posRes : Except Unit (Option Position))
        (m : Monitor),
        (home_and_update stAlarm posRes m).homeOk =
          is_home_successful stAlarm posRes (1 / 2) (1 / 2)) := by
  refine ⟨?_, ?_, ?_⟩
  · intro pos stRaw stAlarm m h
    cases pos <;> cases hr : get_raw_state_string stRaw <;>
      simp [update_scanner_position, hr, h]
  · intro posRes stRaw stAlarm m m' hok
    rcases posRes with e | pos
    · simp [update_scanner_position] at hok
    · cases h : scanner_has_alarm stAlarm <;>
        cases pos <;> cases hr : get_raw_state_string stRaw <;>
          simp [update_scanner_position, hr, h] at hok <;>
            simp [← hok]
  · intro stAlarm posRes m
    rfl

/-- Witness for C6 at concrete inputs: a no-alarm tick over a
previously-homed monitor keeps the flag; the concrete tick that ends homed
was homed before; and a concrete `home_and_update` stores the verification
result. -/
theorem C6_homed_only_by_home_verification_witness :
    (∃ m', update_scanner_position (Except.ok none) (Except.ok none) (Except.ok none)
        monitor_homed = Except.ok m' ∧
      m'.homeOk = monitor_homed.homeOk ∧
      m'.alarmVisible = false ∧ m'.alarmBlink = false) ∧
    monitor_homed.homeOk = true ∧
    (home_and_update (Except.ok none) (Except.ok none) initial_monitor).homeOk =
      is_home_successful (Except.ok none) (Except.ok none) (1 / 2) (1 / 2) :=
  ⟨C6_homed_only_by_home_verification.1 none (Except.ok none) (Except.ok none)
      monitor_homed (by decide),
    C6_homed_only_by_home_verification.2.1 (Except.ok none) (Except.ok none) (Except.ok none)
      monitor_homed monitor_homed_after_quiet_tick (by rfl) (by decide),
    C6_homed_only_by_home_verification.2.2 (Except.ok none) (Except.ok none) initial_monitor⟩

/-- C7: on every log-tail poll whose current file size is smaller than the
stored byte offset, the offset is reset to 0 and that poll pushes the
entire current file content split into lines, leaving the offset equal to
the current file size. -/
theorem C7_tail_rotation_resets (content : List Char) (pos : ℕ)
    (h : content.length < pos) :
    tail_scanner_log (some content) pos = (content.length, splitlines content) := by
  rcases content with _ | ⟨c, cs⟩
  · simp [tail_scanner_log, splitlines, h]
  · simp only [List.length_cons] at h
    simp [tail_scanner_log, h]

/-- Witness for C7 at a concrete input: a two-line file of 4 bytes after the
stored offset had reached 9. -/
theorem C7_tail_rotation_resets_witness :
    (['a', '\n', 'b', 'c'] : List Char).length < 9 ∧
    tail_scanner_log (some ['a', '\n', 'b', 'c']) 9 =
      ((['a', '\n', 'b', 'c'] : List Char).length, splitlines ['a', '\n', 'b', 'c']) :=
  ⟨by decide, C7_tail_rotation_resets ['a', '\n', 'b', 'c'] 9 (by decide)⟩

/-- C8, counterexample: the measurement poll the program registers is
`ui.timer(1.0, update_plot)`, which on a tick whose modification time is
unchanged (here both 5) still reads and re-parses the file and pushes a new
render, instead of reporting "no change". -/
theorem C8_counterexample :
    measurement_timer_tick 5 5 (some [(100, 45, 100)]) ≠ [] ∧
    PlotAction.readFile ∈ measurement_timer_tick 5 5 (some [(100, 45, 100)]) ∧
    PlotAction.pushUpdate ∈ measurement_timer_tick 5 5 (some [(100, 45, 100)]) := by
  refine ⟨?_, ?_, ?_⟩ <;>
    simp [measurement_timer_tick, update_plot, load_measurement_data]

/-- C8, amended: the mtime-gated behaviour the claim describes is
implemented by `watch_file` — an unchanged modification time yields no
actions and an unchanged stored timestamp — but `watch_file` is never
scheduled; the poll the program registers (`ui.timer(1.0, update_plot)`)
invokes `update_plot` on every tick regardless of the modification times,
and every `update_plot` call re-reads the file and pushes a render. -/
theorem C8_measurement_poll_behaviour :
    (∀ (last : ℚ) (file : Option (List (ℚ × ℚ × ℚ))),
        watch_file_tick (some last) last file = (last, [])) ∧
    (∀ (lastMtime currentMtime : ℚ) (file : Option (List (ℚ × ℚ × ℚ))),
        measurement_timer_tick lastMtime currentMtime file = update_plot file) ∧
    (∀ file : Option (List (ℚ × ℚ × ℚ)),
        PlotAction.readFile ∈ update_plot file ∧ PlotAction.pushUpdate ∈ update_plot file) := by
  refine ⟨?_, fun _ _ _ => rfl, ?_⟩
  · intro last file
    simp [watch_file_tick]
  · intro file
    rcases hl : load_measurement_data file with _ | d <;> simp [update_plot, hl]

/-- C9: evaluation of the code at the failing input.  On the claim's own
scenario — one header row and the single data row `100.0,45.0,100.0` — the
loader returns no data: `np.loadtxt` squeezes the single row to a 1-D array,
the column indexing `data[:, 0]` (`main.py` 187) raises `IndexError`, and
the `except` at 199 turns that into `(None, None)`, so no projected point
is produced.  By contrast, on a file with that row twice the indexing
succeeds and each row projects to azimuth 45, elevation 45 — exactly the
pair the claim expected for the single-row file, confirming the divergence
is the single-row squeeze and not the projection arithmetic. -/
theorem C9_single_row_squeeze_returns_no_data :
    load_measurement_data (some [(100, 45, 100)]) = none ∧
    load_measurement_data (some [(100, 45, 100), (100, 45, 100)]) =
      some [((45 : ℚ), (45 : ℝ)), (45, 45)] := by
  constructor
  · simp [load_measurement_data]
  · have h1 : arctan2 (100 : ℝ) 100 = Real.pi / 4 := by
      rw [arctan2, if_pos (by norm_num : (0 : ℝ) < 100)]
      norm_num [Real.arctan_one]
    have h2 : degrees (Real.pi / 4) = 45 := by
      rw [degrees]
      have hpi := Real.pi_ne_zero
      field_simp
      ring
    simp [load_measurement_data]
    rw [h1, h2]

/-- C10: when the `scanner.get_state()` call raises, `_scanner_has_alarm`
returns `false` rather than an unknown outcome; consequently a tick whose
alarm-check state query raises deactivates the alarm indicator, and home
verification proceeds to the position check and can return `true` — it does
so whenever the position is within tolerance — even though the state query
failed. -/
theorem C10_state_error_means_no_alarm (p : Position)
    (stRaw : Except Unit (Option String)) (m : Monitor) :
    scanner_has_alarm (Except.error ()) = false ∧
    (∃ m', update_scanner_position (Except.ok (some p)) stRaw (Except.error ()) m =
        Except.ok m' ∧ m'.alarmVisible = false ∧ m'.alarmBlink = false) ∧
    (∃ q : Position,
        is_home_successful (Except.error ()) (Except.ok (some q)) (1 / 2) (1 / 2) = true) := by
  refine ⟨rfl, ?_, ⟨⟨0, 0, 0⟩, by norm_num [is_home_successful, scanner_has_alarm]⟩⟩
  cases hr : get_raw_state_string stRaw <;>
    simp [update_scanner_position, scanner_has_alarm, hr]

end HarmonicDrive
